import Mathlib

/-!
Shallow embedding of `src/app.py` (AI Student Assistant).

The embedded core is the request-orchestration subsystem: the
`query_huggingface` function (response parsing, HTTP/transport error
classification), the per-mode prompt templates, the whitespace-validation
of the button handler, the request payload, and the memoization applied
to `query_huggingface`.

Python strings are modelled as Lean `String` / `List Char`; the JSON
value returned by `response.json()` is modelled by the inductive `JValue`;
the outcome of the network call is modelled by `Outcome`.
-/

set_option maxRecDepth 100000

namespace StudentAssistant

/-- Characters removed by Python `str.strip()` (the ASCII whitespace set). -/
def pyIsSpace (c : Char) : Bool :=
  c == ' ' || c == '\t' || c == '\n' || c == '\r' || c == '\x0b' || c == '\x0c'

/-- Python `s.strip()`: drop leading and trailing whitespace characters. -/
def pyStrip (s : List Char) : List Char :=
  ((s.dropWhile pyIsSpace).reverse.dropWhile pyIsSpace).reverse

/-- Python substring test `pat in s` (for a non-empty `pat`). -/
def containsSub (pat : List Char) : List Char → Bool
  | [] => pat.isPrefixOf []
  | c :: t => pat.isPrefixOf (c :: t) || containsSub pat t

/-- Number of (possibly overlapping) occurrences of `pat` in `s`; used to
inspect the structure of generated instruction text. -/
def countSub (pat : List Char) : List Char → Nat
  | [] => 0
  | c :: t => (if pat.isPrefixOf (c :: t) then 1 else 0) + countSub pat t

/-- The remainder of `s` after the first (leftmost) occurrence of `pat`. -/
def afterFirst (pat : List Char) : List Char → List Char
  | [] => []
  | c :: t => if pat.isPrefixOf (c :: t) then List.drop pat.length (c :: t)
              else afterFirst pat t

/-- Fuel-indexed left-to-right non-overlapping scan: repeatedly consume the
first occurrence of `pat`; the value once no occurrence remains is the last
piece of Python `s.split(pat)`. -/
def splitLastFuel (pat : List Char) : Nat → List Char → List Char
  | 0, s => s
  | fuel + 1, s =>
      if containsSub pat s then splitLastFuel pat fuel (afterFirst pat s) else s

/-- Python `s.split(pat)[-1]` (for non-empty `pat`): the piece after the last
separator found by the left-to-right non-overlapping scan. -/
def pySplitLast (pat s : List Char) : List Char :=
  splitLastFuel pat s.length s

/-- The suffix of `s` strictly after the last (rightmost) occurrence of `pat`;
`[]` when `pat` does not occur.  This is the wording used by the spec
("the trimmed substring following the last occurrence of that marker"). -/
def afterLastOcc (pat : List Char) : List Char → List Char
  | [] => []
  | c :: t =>
      if containsSub pat t then afterLastOcc pat t
      else if pat.isPrefixOf (c :: t) then List.drop pat.length (c :: t)
      else []

/-- JSON values as produced by `response.json()`.  Object fields model the
parsed Python dict (keys are unique after `json.loads`). -/
inductive JValue where
  | null : JValue
  | bool (b : Bool) : JValue
  | num (n : Int) : JValue
  | str (s : String) : JValue
  | arr (elems : List JValue) : JValue
  | obj (fields : List (String × JValue)) : JValue

/-- The key accessed by the response parser. -/
def gtKey : String := "generated_text"

/-- The closing chat marker appended by `query_huggingface`. -/
def markerText : String := "[/INST]"

/-- The marker as a character list. -/
def instMarker : List Char := markerText.data

/-- Python membership `k in v` for a JSON value `v`: key membership on a
dict, substring test on a string, element equality on a list; `none` models
the `TypeError` raised on the remaining types (not iterable). -/
def pyMemStr (k : String) : JValue → Option Bool
  | .str s => some (containsSub k.data s.data)
  | .arr xs => some (xs.any fun v => match v with | .str t => t == k | _ => false)
  | .obj fs => some (fs.any fun kv => kv.1 == k)
  | _ => none

/-- Python indexing `v[k]` with a string key: field lookup on a dict
(`none` models `KeyError`); `none` also models the `TypeError` raised when
`v` is not a dict (string/list indices must be integers, etc.). -/
def pyIndexStrKey (k : String) : JValue → Option JValue
  | .obj fs => (fs.find? fun kv => kv.1 == k).map fun kv => kv.2
  | _ => none

mutual

/-- Python `repr` of a JSON value, as used for elements nested inside the
f-string rendering of a list/dict.  String escaping inside `repr` is not
modelled (no claim depends on it). -/
def pyRepr : JValue → String
  | .null => "None"
  | .bool true => "True"
  | .bool false => "False"
  | .num n => toString n
  | .str s => "\x27" ++ s ++ "\x27"
  | .arr xs => "[" ++ pyReprSeq xs ++ "]"
  | .obj fs => "\x7b" ++ pyReprFields fs ++ "\x7d"

/-- Comma-separated `repr` of list elements. -/
def pyReprSeq : List JValue → String
  | [] => ""
  | [v] => pyRepr v
  | v :: vs => pyRepr v ++ ", " ++ pyReprSeq vs

/-- Comma-separated `repr` of dict items. -/
def pyReprFields : List (String × JValue) → String
  | [] => ""
  | [kv] => "\x27" ++ kv.1 ++ "\x27: " ++ pyRepr kv.2
  | kv :: kvs => "\x27" ++ kv.1 ++ "\x27: " ++ pyRepr kv.2 ++ ", " ++ pyReprFields kvs

end

/-- Python `str(v)` as used by an f-string: a top-level string is rendered
verbatim, anything else via `repr`. -/
def pyStr : JValue → String
  | .str s => s
  | v => pyRepr v

/-- The fixed inference endpoint URL (line 18 of `app.py`). -/
def API_URL : String :=
  "https://api-inference.huggingface.co/models/mistralai/Mistral-7B-Instruct-v0.3"

/-- The default `model_name` argument of `query_huggingface`. -/
def defaultModelName : String := "Mistral-7B-Instruct-v0.2"

/-- The marker every error branch message starts with. -/
def failMark : String := "❌"

/-- Prefix of the message of the generic `except Exception` branch. -/
def unexpectedPre : String := "❌ An unexpected error occurred during API call: "

/-- Prefix of the unexpected-response-format message (line 62). -/
def fmtPre : String := "❌ Error: Unexpected API response format: "

/-- Stand-in for the CPython `TypeError` text raised by `v["generated_text"]`
when `v` is a string or a list (string/list indices must be integers) or by
`KeyError`; the exact interpreter text is version dependent. -/
def strIndexDetail : String := "string indices must be integers"

/-- Stand-in for the CPython `TypeError` text raised by membership on a
non-container (argument is not iterable). -/
def memTypeErrDetail : String := "argument is not iterable"

/-- Stand-in for the CPython error text raised when `generated_text` is not
a string and `.split`/`.strip` is attempted on it. -/
def attrErrDetail : String := "object has no attribute strip"

/-- Pieces of the HTTP error messages (lines 66-75 of `app.py`). -/
def err404a : String := "❌ Error 404: Model \x27"

/-- Middle piece of the 404 message, before the endpoint URL. -/
def err404b : String := "\x27 not found at "

/-- Tail of the 404 message. -/
def err404c : String :=
  ". Please double-check the model ID and its availability on Hugging Face."

/-- The 401 message (line 69). -/
def err401 : String :=
  "❌ Error 401: Unauthorized. Please check your Hugging Face API token (HF_API_KEY)."

/-- Head of the 503 message. -/
def err503a : String := "❌ Error 503: Service Unavailable. The model \x27"

/-- Tail of the 503 message. -/
def err503b : String :=
  "\x27 is currently loading or busy. Please try again in a moment."

/-- Head of the other-HTTP-status message (line 73). -/
def errHttpA : String := "❌ HTTP Error "

/-- Separator of the other-HTTP-status message. -/
def errHttpB : String := ": "

/-- Head of the connection-error message (line 75). -/
def errConn : String :=
  "❌ Connection Error: Could not connect to Hugging Face API. Please check your internet connection. Details: "

/-- The generic `except Exception` message with its captured detail. -/
def pyUnexpected (detail : String) : String := unexpectedPre ++ detail

/-- The unexpected-format message, rendering the parsed value as Python
`str` would inside the f-string. -/
def pyFormatError (result : JValue) : String := fmtPre ++ pyStr result

/-- Outcome of `requests.post` + `response.raise_for_status()` +
`response.json()`, as observed by the `try`/`except` pyramid:
a 2xx response whose body decoded (`ok`) or failed to decode (`error`,
`ValueError` caught by the generic handler), an HTTP error status
(`HTTPError`), a `ConnectionError`, or any other raised exception
(e.g. a timeout). -/
inductive Outcome where
  | success (body : Except String JValue) : Outcome
  | httpError (status : Nat) (text : String) : Outcome
  | connectionError (detail : String) : Outcome
  | otherError (detail : String) : Outcome

/-- Lines 51-62 of `app.py`: the response parsing performed on a decoded
2xx body, with every internally raised exception routed to the generic
`except Exception` message. -/
def parseResponse (result : JValue) : String :=
  match result with
  | .arr (first :: _) =>
      match pyMemStr gtKey first with
      | none => pyUnexpected memTypeErrDetail
      | some false => pyFormatError result
      | some true =>
          match pyIndexStrKey gtKey first with
          | none => pyUnexpected strIndexDetail
          | some gv =>
              match gv with
              | .str g =>
                  if containsSub instMarker g.data then
                    String.mk (pyStrip (pySplitLast instMarker g.data))
                  else
                    String.mk (pyStrip g.data)
              | _ => pyUnexpected attrErrDetail
  | other => pyFormatError other

/-- Lines 35-77 of `app.py`: `query_huggingface`, with the network stage
abstracted into an `Outcome`. -/
def query_huggingface (outcome : Outcome) (model_name : String) : String :=
  match outcome with
  | .success (.ok result) => parseResponse result
  | .success (.error e) => pyUnexpected e
  | .httpError status text =>
      if status = 404 then err404a ++ model_name ++ err404b ++ API_URL ++ err404c
      else if status = 401 then err401
      else if status = 503 then err503a ++ model_name ++ err503b
      else errHttpA ++ toString status ++ errHttpB ++ text
  | .connectionError e => errConn ++ e
  | .otherError e => pyUnexpected e

/-- Observer: the text `query_huggingface` returns on the success path, if
the outcome is a decoded 2xx body whose first element is a record with a
string-valued `generated_text`; `none` on every failure path. -/
def successText : Outcome → Option String
  | .success (.ok (.arr (.obj fs :: _))) =>
      match ((fs.find? fun kv => kv.1 == gtKey).map (fun kv => kv.2) : Option JValue) with
      | some (.str g) =>
          some (if containsSub instMarker g.data then
                  String.mk (pyStrip (pySplitLast instMarker g.data))
                else
                  String.mk (pyStrip g.data))
      | _ => none
  | _ => none

/-- The shape test of line 52 as the Python conditional evaluates it:
`some b` when `isinstance(result, list) and len(result) > 0 and
"generated_text" in result[0]` evaluates to `b`, and `none` when the
membership test raises `TypeError`. -/
def shapeCheck : JValue → Option Bool
  | .arr (first :: _) => pyMemStr gtKey first
  | _ => some false

/-- Line 37 of `app.py`: the Mistral-Instruct chat wrapping applied to the
instruction before it is sent. -/
def formattedPrompt (prompt_instruction : String) : String :=
  "<s>[INST] " ++ prompt_instruction ++ " [/INST]"

/-- The generation parameters dict (lines 41-46).  The two float literals
are modelled as exact rationals; they are never computed with. -/
structure GenParams where
  max_new_tokens : Nat
  temperature : ℚ
  do_sample : Bool
  top_p : ℚ
deriving DecidableEq

/-- The request payload (lines 39-47). -/
structure Payload where
  inputs : String
  parameters : GenParams
deriving DecidableEq

/-- The fixed parameters sent with every request. -/
def genParams : GenParams := ⟨512, 7 / 10, true, 19 / 20⟩

/-- The payload built from the instruction handed to `query_huggingface`. -/
def mkPayload (prompt_instruction : String) : Payload :=
  ⟨formattedPrompt prompt_instruction, genParams⟩

/-- The sidebar option labels (lines 85-90). -/
def optSummarize : String := "📚 Summarize Text"

/-- Label of the explain-concept mode. -/
def optExplain : String := "💡 Explain Concept"

/-- Label of the model-questions mode. -/
def optModelQuestions : String := "📝 Generate Model Questions"

/-- Label of the quiz-questions mode. -/
def optQuiz : String := "🧠 Generate Quiz Questions"

/-- Line 104: the summarize instruction template. -/
def summarizePrompt (user_input : String) : String :=
  "Summarize the following text concisely and accurately, highlighting the main points:\n\n"
    ++ user_input

/-- Line 106: the explain-concept instruction template. -/
def explainPrompt (user_input : String) : String :=
  "Explain the following concept in simple, easy-to-understand terms for a student:\n\nConcept: "
    ++ user_input

/-- Line 108: the model-questions instruction template. -/
def modelQuestionsPrompt (user_input : String) : String :=
  "Generate 5 detailed model exam/essay questions for the topic \x27"
    ++ user_input
    ++ "\x27. Ensure the questions are open-ended and require analytical answers. Format them as a numbered list."

/-- The fixed text of the quiz template before the embedded input
(line 110 of `app.py`, up to the opening quote of the topic). -/
def quizHead : String :=
  "Create 3 multiple-choice questions (MCQs) with 4 options each, and 2 true/false questions on the topic \x27"

/-- The fixed text of the quiz template after the embedded input
(lines 110-124, byte-exact including the indentation of the
triple-quoted f-string). -/
def quizTail : String :=
  "\x27.\n"
    ++ "                For MCQs, clearly indicate the correct option (A, B, C, or D).\n"
    ++ "                For True/False questions, clearly state \x27True\x27 or \x27False\x27.\n"
    ++ "\n"
    ++ "                Format your output strictly as follows:\n"
    ++ "                1. MCQ Question 1\n"
    ++ "                   a) Option A\n"
    ++ "                   b) Option B\n"
    ++ "                   c) Option C\n"
    ++ "                   d) Option D\n"
    ++ "                   Correct Answer: [Option Letter, e.g., C]\n"
    ++ "\n"
    ++ "                2. True/False Question 1\n"
    ++ "                   Answer: [True/False]\n"
    ++ "                "

/-- Lines 110-124: the quiz-questions instruction template. -/
def quizPrompt (user_input : String) : String :=
  quizHead ++ user_input ++ quizTail

/-- Lines 101-124: the per-mode prompt construction (`prompt` stays `""`
for an unknown option label). -/
def buildPrompt (option user_input : String) : String :=
  if option = optSummarize then summarizePrompt user_input
  else if option = optExplain then explainPrompt user_input
  else if option = optModelQuestions then modelQuestionsPrompt user_input
  else if option = optQuiz then quizPrompt user_input
  else ""

/-- What the page shows after the button is clicked: the warning of
line 97, or the rendered result of line 128. -/
inductive UiOutcome where
  | warning (msg : String) : UiOutcome
  | output (result : String) : UiOutcome
deriving DecidableEq

/-- The warning shown for empty input (line 97). -/
def warnEmpty : String := "⚠ Please enter some text or a topic."

/-- Lines 95-128: the `Get AI Assistance` click handler.  The network is
abstracted as an oracle `net` mapping the instruction that would be sent
to the observed `Outcome`. -/
def handleGetAssistance (net : String → Outcome) (option user_input : String) : UiOutcome :=
  if String.mk (pyStrip user_input.data) = "" then .warning warnEmpty
  else .output (query_huggingface (net (buildPrompt option user_input)) defaultModelName)

/-- Modelled from the spec: the `@st.cache_data` decorator on
`query_huggingface` (line 22) is framework code that is not part of the
repository; the spec describes it as a process-lifetime memoization store
keyed by the prompt text, consulted before any network activity.  `calls`
counts the outbound network calls that were actually performed. -/
structure CacheState where
  entries : List (String × String)
  calls : Nat
deriving DecidableEq

/-- Cache lookup by exact prompt key. -/
def lookupCache (entries : List (String × String)) (k : String) : Option String :=
  (entries.find? fun kv => kv.1 == k).map fun kv => kv.2

/-- The empty cache at process start. -/
def initState : CacheState := ⟨[], 0⟩

/-- Modelled from the spec: one memoized invocation of
`query_huggingface` — on a hit return the stored result with no network
activity, on a miss perform the one network call and store the result. -/
def cachedInvoke (net : String → Outcome) (s : CacheState) (prompt : String) :
    String × CacheState :=
  match lookupCache s.entries prompt with
  | some r => (r, s)
  | none =>
      let r := query_huggingface (net prompt) defaultModelName
      (r, ⟨(prompt, r) :: s.entries, s.calls + 1⟩)

/-- A sequence of memoized invocations, returning the final cache state. -/
def runCache (net : String → Outcome) (s : CacheState) : List String → CacheState
  | [] => s
  | p :: ps => runCache net (cachedInvoke net s p).2 ps

/-- `pat` has no non-trivial self-overlap: no shifted copy of `pat` agrees
with `pat` on the overlap region.  Holds for the marker `[/INST]`. -/
def NoSelfOverlap (pat : List Char) : Prop :=
  ∀ d, d < pat.length → 0 < d → pat.drop d ≠ pat.take (pat.length - d)

theorem isPrefixOf_ex : ∀ l s : List Char, l.isPrefixOf s = true ↔ ∃ t, s = l ++ t
  | [], s => by simp
  | a :: l, [] => by simp
  | a :: l, b :: s => by
      constructor
      · intro h
        rw [List.isPrefixOf_cons₂, Bool.and_eq_true] at h
        obtain ⟨h1, h2⟩ := h
        obtain ⟨t, ht⟩ := (isPrefixOf_ex l s).mp h2
        exact ⟨t, by simp [ht, (beq_iff_eq.mp h1).symm]⟩
      · rintro ⟨t, ht⟩
        obtain ⟨hb, hs⟩ := List.cons.inj ht
        rw [List.isPrefixOf_cons₂, Bool.and_eq_true]
        exact ⟨beq_iff_eq.mpr hb.symm, (isPrefixOf_ex l s).mpr ⟨t, hs⟩⟩

theorem contains_ex (pat : List Char) :
    ∀ s : List Char, containsSub pat s = true ↔ ∃ n, pat.isPrefixOf (s.drop n) = true
  | [] => by
      constructor
      · intro h; exact ⟨0, by simpa [containsSub] using h⟩
      · rintro ⟨n, hn⟩; simpa [containsSub] using hn
  | c :: t => by
      constructor
      · intro h
        rw [containsSub, Bool.or_eq_true] at h
        rcases h with h1 | h2
        · exact ⟨0, by simpa using h1⟩
        · obtain ⟨n, hn⟩ := (contains_ex pat t).mp h2
          exact ⟨n + 1, by simpa using hn⟩
      · rintro ⟨n, hn⟩
        rw [containsSub, Bool.or_eq_true]
        match n with
        | 0 => exact Or.inl (by simpa using hn)
        | m + 1 => exact Or.inr ((contains_ex pat t).mpr ⟨m, by simpa using hn⟩)

theorem contains_of_drop (pat : List Char) (s : List Char) (n : Nat)
    (h : containsSub pat (s.drop n) = true) : containsSub pat s = true := by
  obtain ⟨m, hm⟩ := (contains_ex pat (s.drop n)).mp h
  rw [List.drop_drop] at hm
  exact (contains_ex pat s).mpr ⟨n + m, hm⟩

theorem contains_nil_of_ne (pat : List Char) (hpat : pat ≠ []) :
    containsSub pat [] = false := by
  match pat, hpat with
  | p :: ps, _ => simp [containsSub]

theorem afterFirst_length_lt (pat : List Char) (hpat : pat ≠ []) :
    ∀ s : List Char, containsSub pat s = true → (afterFirst pat s).length < s.length
  | [] => by intro h; rw [contains_nil_of_ne pat hpat] at h; exact absurd h (by simp)
  | c :: t => by
      intro h
      by_cases hp : pat.isPrefixOf (c :: t) = true
      · simp only [afterFirst, hp, if_true]
        have : pat.length ≥ 1 := by
          match pat, hpat with
          | p :: ps, _ => simp [Nat.succ_le_succ, Nat.zero_le]
        simp only [List.length_drop, List.length_cons]
        omega
      · have hct : containsSub pat t = true := by
          rw [containsSub, Bool.or_eq_true] at h
          rcases h with h1 | h2
          · exact absurd h1 hp
          · exact h2
        simp only [afterFirst, hp, if_false]
        exact Nat.lt_trans (afterFirst_length_lt pat hpat t hct) (by simp)

theorem splitLastFuel_not_contains (pat : List Char) (n : Nat) (s : List Char)
    (h : containsSub pat s = false) : splitLastFuel pat n s = s := by
  match n with
  | 0 => rfl
  | m + 1 => simp [splitLastFuel, h]

theorem no_overlap_shift (pat : List Char) (hov : NoSelfOverlap pat) (s : List Char)
    (d : Nat) (hpre : pat.isPrefixOf s = true) (hd0 : 0 < d) (hdlen : d < pat.length) :
    pat.isPrefixOf (s.drop d) = false := by
  cases hb : pat.isPrefixOf (s.drop d) with
  | false => rfl
  | true =>
      exfalso
      obtain ⟨w, hw⟩ := (isPrefixOf_ex pat s).mp hpre
      obtain ⟨z, hz⟩ := (isPrefixOf_ex pat (s.drop d)).mp hb
      rw [hw, List.drop_append_eq_append_drop,
          Nat.sub_eq_zero_of_le (Nat.le_of_lt hdlen), List.drop_zero] at hz
      have hlen : (pat.drop d).length = pat.length - d := List.length_drop d pat
      have htake := congrArg (List.take (pat.length - d)) hz
      rw [List.take_left' hlen, List.take_append_eq_append_take,
          Nat.sub_eq_zero_of_le (Nat.sub_le pat.length d), List.take_zero,
          List.append_nil] at htake
      exact hov d hdlen hd0 htake

theorem afterLastOcc_skip (pat : List Char) (hpat : pat ≠ []) :
    ∀ (k : Nat) (t : List Char), (∀ j, j < k → pat.isPrefixOf (t.drop j) = false) →
      containsSub pat (t.drop k) = true → afterLastOcc pat t = afterLastOcc pat (t.drop k) := by
  intro k
  induction k with
  | zero => intro t _ _; rw [List.drop_zero]
  | succ m ih =>
      intro t hj hc
      match t with
      | [] =>
          rw [List.drop_nil, contains_nil_of_ne pat hpat] at hc
          exact absurd hc (by simp)
      | c :: u =>
          have hdrop : (c :: u).drop (m + 1) = u.drop m := rfl
          rw [hdrop] at hc
          have hcu : containsSub pat u = true := contains_of_drop pat u m hc
          have hstep : afterLastOcc pat (c :: u) = afterLastOcc pat u := by
            simp [afterLastOcc, hcu]
          rw [hstep, hdrop]
          exact ih u (fun j hjm => hj (j + 1) (Nat.succ_lt_succ hjm)) hc

theorem contains_tail (pat : List Char) (c : Char) (t : List Char)
    (h : containsSub pat (c :: t) = true) (hp : pat.isPrefixOf (c :: t) = false) :
    containsSub pat t = true := by
  rw [containsSub, hp, Bool.false_or] at h
  exact h

theorem afterFirst_cons_len (pat : List Char) (hpat : pat ≠ []) (c : Char) (t : List Char) :
    List.drop pat.length (c :: t) = t.drop (pat.length - 1) := by
  match pat, hpat with
  | p :: ps, _ => simp

theorem afterLastOcc_step (pat : List Char) (hpat : pat ≠ []) (hov : NoSelfOverlap pat) :
    ∀ s : List Char, containsSub pat s = true →
      afterLastOcc pat s =
        (if containsSub pat (afterFirst pat s) = true then afterLastOcc pat (afterFirst pat s)
         else afterFirst pat s)
  | [] => by
      intro hc
      rw [contains_nil_of_ne pat hpat] at hc
      exact absurd hc (by simp)
  | c :: t => by
      intro hc
      have hlen1 : 1 ≤ pat.length := by
        match pat, hpat with
        | p :: ps, _ => simp
      cases hp : pat.isPrefixOf (c :: t) with
      | true =>
          have hAF : afterFirst pat (c :: t) = t.drop (pat.length - 1) := by
            rw [afterFirst, if_pos hp, afterFirst_cons_len pat hpat c t]
          rw [hAF]
          cases hr : containsSub pat (t.drop (pat.length - 1)) with
          | true =>
              rw [if_pos rfl]
              have hct : containsSub pat t = true :=
                contains_of_drop pat t (pat.length - 1) hr
              have h1 : afterLastOcc pat (c :: t) = afterLastOcc pat t := by
                rw [afterLastOcc, if_pos hct]
              rw [h1]
              exact afterLastOcc_skip pat hpat (pat.length - 1) t
                (fun j hj => by
                  have hdj : t.drop j = (c :: t).drop (j + 1) := rfl
                  rw [hdj]
                  exact no_overlap_shift pat hov (c :: t) (j + 1) hp
                    (Nat.succ_pos j) (by omega))
                hr
          | false =>
              rw [if_neg (by simp)]
              have hct : containsSub pat t = false := by
                cases hco : containsSub pat t with
                | false => rfl
                | true =>
                    exfalso
                    obtain ⟨n, hn⟩ := (contains_ex pat t).mp hco
                    by_cases hnlt : n < pat.length - 1
                    · have hno := no_overlap_shift pat hov (c :: t) (n + 1) hp
                        (Nat.succ_pos n) (by omega)
                      have hdj : (c :: t).drop (n + 1) = t.drop n := rfl
                      rw [hdj, hn] at hno
                      exact absurd hno (by simp)
                    · have hge : pat.length - 1 ≤ n := Nat.le_of_not_lt hnlt
                      have hdd : (t.drop (pat.length - 1)).drop (n - (pat.length - 1))
                          = t.drop n := by
                        rw [List.drop_drop]
                        congr 1
                        omega
                      have : containsSub pat (t.drop (pat.length - 1)) = true :=
                        (contains_ex pat (t.drop (pat.length - 1))).mpr
                          ⟨n - (pat.length - 1), by rw [hdd]; exact hn⟩
                      rw [this] at hr
                      exact absurd hr (by simp)
              rw [afterLastOcc, if_neg (by simp [hct]), if_pos hp,
                  afterFirst_cons_len pat hpat c t]
      | false =>
          have hct : containsSub pat t = true := contains_tail pat c t hc hp
          have hAF : afterFirst pat (c :: t) = afterFirst pat t := by
            rw [afterFirst, if_neg (by simp [hp])]
          have h1 : afterLastOcc pat (c :: t) = afterLastOcc pat t := by
            rw [afterLastOcc, if_pos hct]
          rw [hAF, h1]
          exact afterLastOcc_step pat hpat hov t hct

theorem splitLastFuel_eq_afterLastOcc (pat : List Char) (hpat : pat ≠ [])
    (hov : NoSelfOverlap pat) :
    ∀ (n : Nat) (s : List Char), s.length ≤ n → containsSub pat s = true →
      splitLastFuel pat n s = afterLastOcc pat s := by
  intro n
  induction n with
  | zero =>
      intro s hs hc
      have hnil : s = [] := List.length_eq_zero.mp (Nat.le_zero.mp hs)
      rw [hnil, contains_nil_of_ne pat hpat] at hc
      exact absurd hc (by simp)
  | succ m ih =>
      intro s hs hc
      rw [splitLastFuel, if_pos hc]
      cases hr : containsSub pat (afterFirst pat s) with
      | true =>
          have hlt : (afterFirst pat s).length < s.length :=
            afterFirst_length_lt pat hpat s hc
          rw [ih (afterFirst pat s) (by omega) hr,
              afterLastOcc_step pat hpat hov s hc, if_pos hr]
      | false =>
          rw [splitLastFuel_not_contains pat m _ hr,
              afterLastOcc_step pat hpat hov s hc, if_neg (by simp [hr])]

theorem pySplitLast_eq_afterLastOcc (pat : List Char) (hpat : pat ≠ [])
    (hov : NoSelfOverlap pat) (s : List Char) (hc : containsSub pat s = true) :
    pySplitLast pat s = afterLastOcc pat s :=
  splitLastFuel_eq_afterLastOcc pat hpat hov s.length s Nat.le.refl hc

theorem pySplitLast_not_contains (pat s : List Char) (h : containsSub pat s = false) :
    pySplitLast pat s = s :=
  splitLastFuel_not_contains pat s.length s h

theorem instMarker_ne_nil : instMarker ≠ [] := by decide

theorem instMarker_no_overlap : NoSelfOverlap instMarker := by
  unfold NoSelfOverlap
  decide

theorem mem_true_of_index (fs : List (String × JValue)) (v : JValue)
    (h : pyIndexStrKey gtKey (.obj fs) = some v) :
    pyMemStr gtKey (.obj fs) = some true := by
  simp only [pyIndexStrKey, Option.map_eq_some'] at h
  obtain ⟨kv, hkv, _⟩ := h
  simp only [pyMemStr, Option.some_inj]
  have hsome : (fs.find? fun kv => kv.1 == gtKey).isSome := by rw [hkv]; rfl
  obtain ⟨x, hx, hpx⟩ := List.find?_isSome.mp hsome
  exact List.any_eq_true.mpr ⟨x, hx, hpx⟩

theorem parseResponse_record (fs : List (String × JValue)) (rest : List JValue)
    (g : String) (h : pyIndexStrKey gtKey (.obj fs) = some (.str g)) :
    parseResponse (.arr (.obj fs :: rest)) =
      (if containsSub instMarker g.data = true then
        String.mk (pyStrip (pySplitLast instMarker g.data))
      else
        String.mk (pyStrip g.data)) := by
  have hmem := mem_true_of_index fs (.str g) h
  rw [parseResponse, hmem, h]

theorem startsWithFail (pre : String)
    (h : List.isPrefixOf failMark.data pre.data = true) (rest : String) :
    List.isPrefixOf failMark.data ((pre ++ rest).data) = true := by
  obtain ⟨u, hu⟩ := (isPrefixOf_ex failMark.data pre.data).mp h
  exact (isPrefixOf_ex failMark.data ((pre ++ rest).data)).mpr
    ⟨u ++ rest.data, by rw [String.data_append, hu, List.append_assoc]⟩

theorem query_of_successText (o : Outcome) (mn t : String)
    (h : successText o = some t) : query_huggingface o mn = t := by
  rcases o with body | ⟨status, text⟩ | e | e
  · rcases body with e | r
    · simp [successText] at h
    · rcases r with _ | b | n | s | elems | fs
      · simp [successText] at h
      · simp [successText] at h
      · simp [successText] at h
      · simp [successText] at h
      · rcases elems with _ | ⟨first, rest⟩
        · simp [successText] at h
        · rcases first with _ | b | n | s | el2 | fs
          · simp [successText] at h
          · simp [successText] at h
          · simp [successText] at h
          · simp [successText] at h
          · simp [successText] at h
          · simp only [successText] at h
            cases hf : ((fs.find? fun kv => kv.1 == gtKey).map fun kv => kv.2 :
                Option JValue) with
            | none => rw [hf] at h; simp at h
            | some gv =>
                rw [hf] at h
                rcases gv with _ | b | n | g | el2 | f2
                · simp at h
                · simp at h
                · simp at h
                · have hidx : pyIndexStrKey gtKey (.obj fs) = some (.str g) := hf
                  have hq : query_huggingface (.success (.ok (.arr (.obj fs :: rest)))) mn
                      = parseResponse (.arr (.obj fs :: rest)) := rfl
                  rw [hq, parseResponse_record fs rest g hidx]
                  exact Option.some_inj.mp h
                · simp at h
                · simp at h
      · simp [successText] at h
  · simp [successText] at h
  · simp [successText] at h
  · simp [successText] at h

theorem query_fail_marked (o : Outcome) (mn : String) (h : successText o = none) :
    List.isPrefixOf failMark.data ((query_huggingface o mn).data) = true := by
  have hfmt : ∀ r : JValue, List.isPrefixOf failMark.data ((pyFormatError r).data) = true :=
    fun r => startsWithFail fmtPre (by decide) (pyStr r)
  have hunex : ∀ d : String, List.isPrefixOf failMark.data ((pyUnexpected d).data) = true :=
    fun d => startsWithFail unexpectedPre (by decide) d
  rcases o with body | ⟨status, text⟩ | e | e
  · rcases body with e | r
    · exact hunex e
    · show List.isPrefixOf failMark.data ((parseResponse r).data) = true
      rcases r with _ | b | n | s | elems | fs
      · exact hfmt _
      · exact hfmt _
      · exact hfmt _
      · exact hfmt _
      · rcases elems with _ | ⟨first, rest⟩
        · exact hfmt _
        · rcases first with _ | b | n | s | el2 | fs
          · exact hunex _
          · exact hunex _
          · exact hunex _
          · cases hcs : containsSub gtKey.data s.data with
            | false =>
                simp only [parseResponse, pyMemStr, hcs]
                exact hfmt _
            | true =>
                simp only [parseResponse, pyMemStr, hcs, pyIndexStrKey]
                exact hunex _
          · cases hcs : (el2.any fun v => match v with | .str t => t == gtKey | _ => false) with
            | false =>
                simp only [parseResponse, pyMemStr, hcs]
                exact hfmt _
            | true =>
                simp only [parseResponse, pyMemStr, hcs, pyIndexStrKey]
                exact hunex _
          · cases ha : (fs.any fun kv => kv.1 == gtKey) with
            | false =>
                simp only [parseResponse, pyMemStr, ha]
                exact hfmt _
            | true =>
                have hsome : (fs.find? fun kv => kv.1 == gtKey).isSome :=
                  List.find?_isSome.mpr (List.any_eq_true.mp ha)
                obtain ⟨kv, hkv⟩ := Option.isSome_iff_exists.mp hsome
                rcases kv with ⟨k, v⟩
                rcases v with _ | b | n | g | el2 | f2
                · simp only [parseResponse, pyMemStr, ha, pyIndexStrKey, hkv,
                    Option.map_some']
                  exact hunex _
                · simp only [parseResponse, pyMemStr, ha, pyIndexStrKey, hkv,
                    Option.map_some']
                  exact hunex _
                · simp only [parseResponse, pyMemStr, ha, pyIndexStrKey, hkv,
                    Option.map_some']
                  exact hunex _
                · exfalso
                  simp only [successText, hkv, Option.map_some'] at h
                  exact Option.noConfusion h
                · simp only [parseResponse, pyMemStr, ha, pyIndexStrKey, hkv,
                    Option.map_some']
                  exact hunex _
                · simp only [parseResponse, pyMemStr, ha, pyIndexStrKey, hkv,
                    Option.map_some']
                  exact hunex _
      · exact hfmt _
  · show List.isPrefixOf failMark.data
      ((if status = 404 then err404a ++ mn ++ err404b ++ API_URL ++ err404c
        else if status = 401 then err401
        else if status = 503 then err503a ++ mn ++ err503b
        else errHttpA ++ toString status ++ errHttpB ++ text).data) = true
    by_cases h4 : status = 404
    · rw [if_pos h4]
      exact startsWithFail _ (startsWithFail _ (startsWithFail _
        (startsWithFail err404a (by decide) mn) err404b) API_URL) err404c
    · rw [if_neg h4]
      by_cases h1 : status = 401
      · rw [if_pos h1]; decide
      · rw [if_neg h1]
        by_cases h5 : status = 503
        · rw [if_pos h5]
          exact startsWithFail _ (startsWithFail err503a (by decide) mn) err503b
        · rw [if_neg h5]
          exact startsWithFail _ (startsWithFail _
            (startsWithFail errHttpA (by decide) (toString status)) errHttpB) text
  · exact startsWithFail errConn (by decide) e
  · exact hunex e

/-- The keys currently stored in the cache. -/
def cacheKeys (s : CacheState) : List String := s.entries.map fun kv => kv.1

theorem lookupCache_none_iff (entries : List (String × String)) (p : String) :
    lookupCache entries p = none ↔ p ∉ entries.map fun kv => kv.1 := by
  simp only [lookupCache, Option.map_eq_none', List.find?_eq_none, List.mem_map]
  constructor
  · rintro hno ⟨kv, hkv, hk⟩
    exact absurd (beq_iff_eq.mpr hk) (by simpa using hno kv hkv)
  · intro hnm kv hkv hbeq
    exact hnm ⟨kv, hkv, beq_iff_eq.mp hbeq⟩

theorem runCache_invariant (net : String → Outcome) :
    ∀ (ps : List String) (s : CacheState), (cacheKeys s).Nodup →
      s.calls ≤ (cacheKeys s).length →
      ((cacheKeys (runCache net s ps)).Nodup ∧
        (runCache net s ps).calls ≤ (cacheKeys (runCache net s ps)).length ∧
        ∀ k, k ∈ cacheKeys (runCache net s ps) → k ∈ cacheKeys s ∨ k ∈ ps) := by
  intro ps
  induction ps with
  | nil =>
      intro s hnd hle
      exact ⟨hnd, hle, fun k hk => Or.inl hk⟩
  | cons p ps ih =>
      intro s hnd hle
      cases hl : lookupCache s.entries p with
      | some r =>
          have hstep : (cachedInvoke net s p).2 = s := by
            simp [cachedInvoke, hl]
          have hrun : runCache net s (p :: ps) = runCache net s ps := by
            rw [runCache, hstep]
          rw [hrun]
          obtain ⟨h1, h2, h3⟩ := ih s hnd hle
          exact ⟨h1, h2, fun k hk => (h3 k hk).imp id (fun hm => List.mem_cons_of_mem p hm)⟩
      | none =>
          set r := query_huggingface (net p) defaultModelName with hr
          have hstep : (cachedInvoke net s p).2 = ⟨(p, r) :: s.entries, s.calls + 1⟩ := by
            simp [cachedInvoke, hl]
          have hkeys : cacheKeys ⟨(p, r) :: s.entries, s.calls + 1⟩ = p :: cacheKeys s := by
            simp [cacheKeys]
          have hpnot : p ∉ cacheKeys s := by
            have := (lookupCache_none_iff s.entries p).mp hl
            simpa [cacheKeys] using this
          have hnd2 : (cacheKeys ⟨(p, r) :: s.entries, s.calls + 1⟩).Nodup := by
            rw [hkeys]
            exact List.nodup_cons.mpr ⟨hpnot, hnd⟩
          have hle2 : (⟨(p, r) :: s.entries, s.calls + 1⟩ : CacheState).calls ≤
              (cacheKeys ⟨(p, r) :: s.entries, s.calls + 1⟩).length := by
            rw [hkeys]
            simpa using Nat.succ_le_succ hle
          have hrun : runCache net s (p :: ps) =
              runCache net ⟨(p, r) :: s.entries, s.calls + 1⟩ ps := by
            rw [runCache, hstep]
          rw [hrun]
          obtain ⟨h1, h2, h3⟩ := ih _ hnd2 hle2
          refine ⟨h1, h2, fun k hk => ?_⟩
          rcases h3 k hk with hm | hm
          · rw [hkeys] at hm
            rcases List.mem_cons.mp hm with he | hm2
            · exact Or.inr (he ▸ List.mem_cons_self p ps)
            · exact Or.inl hm2
          · exact Or.inr (List.mem_cons_of_mem p hm)

theorem nodup_length_le_dedup (l l' : List String) (hnd : l.Nodup)
    (hsub : ∀ k, k ∈ l → k ∈ l') : l.length ≤ l'.dedup.length := by
  have h1 : l.toFinset.card = l.length := List.toFinset_card_of_nodup hnd
  have h2 : l'.toFinset.card = l'.dedup.length := List.card_toFinset l'
  have h3 : l.toFinset ⊆ l'.toFinset := by
    intro a ha
    rw [List.mem_toFinset] at ha ⊢
    exact hsub a ha
  calc l.length = l.toFinset.card := h1.symm
    _ ≤ l'.toFinset.card := Finset.card_le_card h3
    _ = l'.dedup.length := h2

theorem parseResponse_format_of_shape_false (body : JValue)
    (h : shapeCheck body = some false) : parseResponse body = pyFormatError body := by
  rcases body with _ | b | n | s | elems | fs
  · rfl
  · rfl
  · rfl
  · rfl
  · rcases elems with _ | ⟨first, rest⟩
    · rfl
    · have hm : pyMemStr gtKey first = some false := h
      rw [parseResponse, hm]
  · rfl

/-- C1: for every successful response body that deserializes into a non-empty
list of records whose first record carries a string-valued `generated_text`
field, `query_huggingface` returns the trimmed substring following the last
occurrence of the closing marker `[/INST]` when the marker is present in the
text, and the whole text trimmed of leading/trailing whitespace otherwise. -/
theorem C1_generated_text_extraction (fs : List (String × JValue)) (rest : List JValue)
    (g mn : String) (h : pyIndexStrKey gtKey (.obj fs) = some (.str g)) :
    query_huggingface (.success (.ok (.arr (.obj fs :: rest)))) mn =
      (if containsSub instMarker g.data = true then
        String.mk (pyStrip (afterLastOcc instMarker g.data))
      else
        String.mk (pyStrip g.data)) := by
  have hq : query_huggingface (.success (.ok (.arr (.obj fs :: rest)))) mn
      = parseResponse (.arr (.obj fs :: rest)) := rfl
  rw [hq, parseResponse_record fs rest g h]
  by_cases hc : containsSub instMarker g.data = true
  · rw [if_pos hc, if_pos hc,
      pySplitLast_eq_afterLastOcc instMarker instMarker_ne_nil instMarker_no_overlap g.data hc]
  · rw [if_neg hc, if_neg hc]

/-- Witness for C1 at the spec's two example payloads. -/
theorem C1_witness :
    (pyIndexStrKey gtKey (.obj [(gtKey, JValue.str ("<s>[INST] X [/INST] answer"))])
        = some (.str ("<s>[INST] X [/INST] answer")) ∧
      query_huggingface
        (.success (.ok (.arr [.obj [(gtKey, JValue.str ("<s>[INST] X [/INST] answer"))]])))
        defaultModelName = ("answer" : String)) ∧
    query_huggingface
        (.success (.ok (.arr [.obj [(gtKey, JValue.str ("plain text, no marker"))]])))
        defaultModelName = ("plain text, no marker" : String) :=
  ⟨⟨rfl,
    (C1_generated_text_extraction [(gtKey, JValue.str ("<s>[INST] X [/INST] answer"))] []
      ("<s>[INST] X [/INST] answer") defaultModelName rfl).trans (by decide)⟩,
   (C1_generated_text_extraction [(gtKey, JValue.str ("plain text, no marker"))] []
      ("plain text, no marker") defaultModelName rfl).trans (by decide)⟩

/-- C2: a decoded 2xx body is handed to the response parsing code, and every
HTTP or transport failure maps to its message: 404 names the model id and the
endpoint URL, 401 advises checking the token, 503 says the model is
loading/busy, any other status reports the code and raw body, a connection
failure reports its detail, and any other exception yields the generic
message with the captured detail. -/
theorem C2_error_classification (body : JValue) (status : Nat) (text detail mn : String)
    (h404 : status ≠ 404) (h401 : status ≠ 401) (h503 : status ≠ 503) :
    query_huggingface (.success (.ok body)) mn = parseResponse body ∧
    query_huggingface (.httpError 404 text) mn
      = err404a ++ mn ++ err404b ++ API_URL ++ err404c ∧
    query_huggingface (.httpError 401 text) mn = err401 ∧
    query_huggingface (.httpError 503 text) mn = err503a ++ mn ++ err503b ∧
    query_huggingface (.httpError status text) mn
      = errHttpA ++ toString status ++ errHttpB ++ text ∧
    query_huggingface (.connectionError detail) mn = errConn ++ detail ∧
    query_huggingface (.otherError detail) mn = pyUnexpected detail := by
  refine ⟨rfl, by simp [query_huggingface], by simp [query_huggingface],
    by simp [query_huggingface], ?_, rfl, rfl⟩
  simp [query_huggingface, h404, h401, h503]

/-- Witness for C2 at status 500 and concrete body/text/detail. -/
theorem C2_witness :
    query_huggingface (.success (.ok (JValue.num 1))) ("M") = parseResponse (JValue.num 1) ∧
    query_huggingface (.httpError 404 ("b")) ("M")
      = err404a ++ ("M") ++ err404b ++ API_URL ++ err404c ∧
    query_huggingface (.httpError 401 ("b")) ("M") = err401 ∧
    query_huggingface (.httpError 503 ("b")) ("M") = err503a ++ ("M") ++ err503b ∧
    query_huggingface (.httpError 500 ("b")) ("M")
      = errHttpA ++ toString 500 ++ errHttpB ++ ("b") ∧
    query_huggingface (.connectionError ("d")) ("M") = errConn ++ ("d") ∧
    query_huggingface (.otherError ("d")) ("M") = pyUnexpected ("d") :=
  C2_error_classification (JValue.num 1) 500 ("b") ("d") ("M")
    (by decide) (by decide) (by decide)

/-- C3: from the fresh process state, invoking twice with the same prompt
performs exactly one network call and the second invocation returns the
identical result; over any sequence of prompts the number of network calls
is bounded by the number of distinct prompts. -/
theorem C3_cache_single_call (net : String → Outcome) (p : String) (ps : List String) :
    (cachedInvoke net (cachedInvoke net initState p).2 p).1
      = (cachedInvoke net initState p).1 ∧
    (cachedInvoke net (cachedInvoke net initState p).2 p).2.calls = 1 ∧
    (runCache net initState ps).calls ≤ ps.dedup.length := by
  refine ⟨?_, ?_, ?_⟩
  · simp [cachedInvoke, lookupCache, initState, List.find?]
  · simp [cachedInvoke, lookupCache, initState, List.find?]
  · obtain ⟨h1, h2, h3⟩ := runCache_invariant net ps initState
      (by simp [cacheKeys, initState]) (by simp [cacheKeys, initState])
    have hsub : ∀ k, k ∈ cacheKeys (runCache net initState ps) → k ∈ ps := by
      intro k hk
      rcases h3 k hk with hm | hm
      · simp [cacheKeys, initState] at hm
      · exact hm
    exact le_trans h2 (nodup_length_le_dedup _ ps h1 hsub)

/-- C4 counterexample: the body `["generated_text"]` is not a non-empty list
of records with the field, yet the parser does not return the
"Unexpected API response format" message for it — the membership shape test
passes on the string and the subsequent item access lands in the generic
branch instead. -/
theorem C4_counterexample :
    query_huggingface (.success (.ok (.arr [.str gtKey]))) defaultModelName
      = pyUnexpected strIndexDetail ∧
    List.isPrefixOf fmtPre.data
      ((query_huggingface (.success (.ok (.arr [.str gtKey]))) defaultModelName).data)
      = false := by
  constructor
  · decide
  · decide

/-- C4 (amended): every body without an extractable string `generated_text`
yields an error string starting with the `❌` marker and never a fault; the
bodies on which the shape test itself evaluates to false get exactly the
"Unexpected API response format" message, while bodies on which the test
raises or passes spuriously fall to the generic message instead. -/
theorem C4_malformed_degrades (body : JValue) (mn : String)
    (h : successText (.success (.ok body)) = none) :
    List.isPrefixOf failMark.data
      ((query_huggingface (.success (.ok body)) mn).data) = true ∧
    (shapeCheck body = some false →
      query_huggingface (.success (.ok body)) mn = pyFormatError body) := by
  refine ⟨query_fail_marked _ mn h, fun hs => ?_⟩
  show parseResponse body = pyFormatError body
  exact parseResponse_format_of_shape_false body hs

/-- Witness for C4 (amended) at the body `5`. -/
theorem C4_witness :
    successText (.success (.ok (JValue.num 5))) = none ∧
    (List.isPrefixOf failMark.data
        ((query_huggingface (.success (.ok (JValue.num 5))) defaultModelName).data) = true ∧
      (shapeCheck (JValue.num 5) = some false →
        query_huggingface (.success (.ok (JValue.num 5))) defaultModelName
          = pyFormatError (JValue.num 5))) :=
  ⟨rfl, C4_malformed_degrades (JValue.num 5) defaultModelName rfl⟩

/-- C5 counterexample: at the input `photosynthesis` the generated quiz
instruction text contains exactly one `Correct Answer:` line and one
standalone `Answer:` line — not three MCQ blocks and two True/False blocks. -/
theorem C5_counterexample :
    countSub ("Correct Answer:").data ((quizPrompt ("photosynthesis")).data) = 1 ∧
    countSub ("\n                   Answer:").data ((quizPrompt ("photosynthesis")).data) = 1 ∧
    ¬ (countSub ("Correct Answer:").data ((quizPrompt ("photosynthesis")).data) = 3 ∧
       countSub ("\n                   Answer:").data ((quizPrompt ("photosynthesis")).data) = 2) := by
  refine ⟨by decide, by decide, ?_⟩
  intro hcontra
  have h1 : countSub ("Correct Answer:").data ((quizPrompt ("photosynthesis")).data) = 1 := by
    decide
  rw [h1] at hcontra
  exact absurd hcontra.1 (by decide)

/-- C5 (amended): the quiz instruction embeds the input between a fixed head
and tail; the head demands 3 MCQs and 2 true/false questions in prose, and
the fixed template text contains exactly one example MCQ block (one a)–d)
option set with one `Correct Answer:` line) and one example True/False
`Answer:` line as a format illustration. -/
theorem C5_quiz_template_structure (s : String) :
    quizPrompt s = quizHead ++ s ++ quizTail ∧
    countSub ("Create 3 multiple-choice questions").data quizHead.data = 1 ∧
    countSub ("2 true/false questions").data quizHead.data = 1 ∧
    countSub ("Correct Answer:").data quizHead.data = 0 ∧
    countSub ("Correct Answer:").data quizTail.data = 1 ∧
    countSub ("\n                   Answer:").data quizHead.data = 0 ∧
    countSub ("\n                   Answer:").data quizTail.data = 1 ∧
    countSub ("a) ").data quizTail.data = 1 ∧
    countSub ("b) ").data quizTail.data = 1 ∧
    countSub ("c) ").data quizTail.data = 1 ∧
    countSub ("d) ").data quizTail.data = 1 :=
  ⟨rfl, by decide, by decide, by decide, by decide, by decide, by decide,
    by decide, by decide, by decide, by decide⟩

/-- C6: input that is empty after stripping whitespace yields the warning,
for every network oracle and mode label — so neither the prompt builder nor
the network is observable in the result. -/
theorem C6_whitespace_rejected (net : String → Outcome) (option user_input : String)
    (h : pyStrip user_input.data = []) :
    handleGetAssistance net option user_input = .warning warnEmpty := by
  rw [handleGetAssistance, if_pos (by rw [h])]

/-- Witness for C6 at the input of three spaces. -/
theorem C6_witness :
    pyStrip ("   " : String).data = [] ∧
    handleGetAssistance (fun _ => Outcome.otherError ("x")) optSummarize ("   ")
      = .warning warnEmpty :=
  ⟨by decide,
    C6_whitespace_rejected (fun _ => Outcome.otherError ("x")) optSummarize ("   ") (by decide)⟩

/-- C7: every request payload is the record `inputs` / `parameters` where
`inputs` is the chat-wrapped instruction and `parameters` is the fixed
configuration 512 / 0.7 / sampling / 0.95, identical for all inputs. -/
theorem C7_payload_shape (option user_input x y : String) :
    mkPayload (buildPrompt option user_input) =
      ⟨("<s>[INST] ") ++ buildPrompt option user_input ++ (" [/INST]"),
        ⟨512, 7 / 10, true, 19 / 20⟩⟩ ∧
    (mkPayload x).parameters = (mkPayload y).parameters :=
  ⟨rfl, rfl⟩

/-- C8: `query_huggingface` is a total function into strings — every outcome,
including every modelled raised exception, produces a string — and on every
failure path the string starts with the `❌` marker, while on the success
path it is exactly the extracted model text. -/
theorem C8_failure_marker (o : Outcome) (mn : String) :
    (match successText o with
      | some t => query_huggingface o mn = t
      | none => List.isPrefixOf failMark.data ((query_huggingface o mn).data) = true) := by
  cases hs : successText o with
  | some t => exact query_of_successText o mn t hs
  | none => exact query_fail_marked o mn hs

/-- C9: a JSON list whose first element is a string containing the substring
`generated_text` passes the membership shape test, but the subsequent item
access fails, so the result is the generic unexpected-error message and not
the format-error message; a body that is not valid JSON also lands in the
generic branch.  Both are returned values, not faults. -/
theorem C9_spurious_shape_pass (s e mn : String)
    (h : containsSub gtKey.data s.data = true) :
    shapeCheck (.arr [.str s]) = some true ∧
    pyIndexStrKey gtKey (.str s) = none ∧
    query_huggingface (.success (.ok (.arr [.str s]))) mn = pyUnexpected strIndexDetail ∧
    query_huggingface (.success (.ok (.arr [.str s]))) mn ≠ pyFormatError (.arr [.str s]) ∧
    query_huggingface (.success (.error e)) mn = pyUnexpected e := by
  have hq : query_huggingface (.success (.ok (.arr [.str s]))) mn
      = pyUnexpected strIndexDetail := by
    show parseResponse (.arr [.str s]) = pyUnexpected strIndexDetail
    rw [parseResponse, pyMemStr, h]
    rfl
  refine ⟨by simp [shapeCheck, pyMemStr, h], rfl, hq, ?_, rfl⟩
  intro heq
  have hL : (pyUnexpected strIndexDetail).data.take 4 = ("❌ An").data := by decide
  have hR : (pyFormatError (.arr [.str s])).data.take 4 = ("❌ Er").data := by
    show ((fmtPre ++ pyStr (.arr [.str s])).data.take 4) = ("❌ Er").data
    rw [String.data_append, List.take_append_eq_append_take,
      Nat.sub_eq_zero_of_le (by decide), List.take_zero, List.append_nil]
    decide
  rw [hq] at heq
  rw [heq, hR] at hL
  exact absurd hL (by decide)

/-- Witness for C9 at a concrete string containing `generated_text`. -/
theorem C9_witness :
    containsSub gtKey.data ("xx generated_text yy" : String).data = true ∧
    (shapeCheck (.arr [.str ("xx generated_text yy")]) = some true ∧
      pyIndexStrKey gtKey (.str ("xx generated_text yy")) = none ∧
      query_huggingface (.success (.ok (.arr [.str ("xx generated_text yy")])))
        defaultModelName = pyUnexpected strIndexDetail ∧
      query_huggingface (.success (.ok (.arr [.str ("xx generated_text yy")])))
        defaultModelName ≠ pyFormatError (.arr [.str ("xx generated_text yy")]) ∧
      query_huggingface (.success (.error ("bad json"))) defaultModelName
        = pyUnexpected ("bad json")) :=
  ⟨by decide,
    C9_spurious_shape_pass ("xx generated_text yy") ("bad json") defaultModelName (by decide)⟩

/-- C10: a well-shaped response whose extracted answer region (the text after
the last marker when the marker occurs, the whole text otherwise) strips to
nothing produces the empty string, returned on the success path and not
classified as an error. -/
theorem C10_empty_answer_success (fs : List (String × JValue)) (rest : List JValue)
    (g mn : String) (h : pyIndexStrKey gtKey (.obj fs) = some (.str g))
    (hws : pyStrip (pySplitLast instMarker g.data) = []) :
    query_huggingface (.success (.ok (.arr (.obj fs :: rest)))) mn = ("" : String) ∧
    List.isPrefixOf failMark.data
      ((query_huggingface (.success (.ok (.arr (.obj fs :: rest)))) mn).data) = false := by
  have hq : query_huggingface (.success (.ok (.arr (.obj fs :: rest)))) mn
      = parseResponse (.arr (.obj fs :: rest)) := rfl
  have hmain : query_huggingface (.success (.ok (.arr (.obj fs :: rest)))) mn = ("" : String) := by
    rw [hq, parseResponse_record fs rest g h]
    by_cases hc : containsSub instMarker g.data = true
    · rw [if_pos hc, hws]
    · rw [if_neg hc]
      have hcf : containsSub instMarker g.data = false := by
        cases hx : containsSub instMarker g.data with
        | true => exact absurd hx hc
        | false => rfl
      have hns : pySplitLast instMarker g.data = g.data :=
        pySplitLast_not_contains instMarker g.data hcf
      rw [← hns, hws]
  refine ⟨hmain, ?_⟩
  rw [hmain]
  decide

/-- Witness for C10 at a marker followed by whitespace only. -/
theorem C10_witness :
    pyIndexStrKey gtKey (.obj [(gtKey, JValue.str (" [/INST]  "))])
      = some (.str (" [/INST]  ")) ∧
    pyStrip (pySplitLast instMarker (" [/INST]  " : String).data) = [] ∧
    (query_huggingface
        (.success (.ok (.arr [.obj [(gtKey, JValue.str (" [/INST]  "))]])))
        defaultModelName = ("" : String) ∧
      List.isPrefixOf failMark.data
        ((query_huggingface
          (.success (.ok (.arr [.obj [(gtKey, JValue.str (" [/INST]  "))]])))
          defaultModelName).data) = false) :=
  ⟨rfl, by decide,
    C10_empty_answer_success [(gtKey, JValue.str (" [/INST]  "))] [] (" [/INST]  ")
      defaultModelName rfl (by decide)⟩

end StudentAssistant
